import Mathlib

/-! # Tank configuration data model (projeto.h)

A shallow embedding of the two type declarations of `projeto.h`:

* `measure_error`, the enumeration `{ NONE, BELOW_MIN, ABOVE_MAX }`: its three
  enumerators, the integer value C assigns to each of them (the first is 0, each
  following one is the previous plus 1), and the values an object of the
  enumerated type holds, which are integers and need not be enumerators;
* `WaterTank`, the record of five scalar fields, four of type `uint16_t` and one
  of type `float`.

The header holds no function.  What is modelled besides the two types is what the
C language itself does with them: the value of an enumerator, the conversion of an
integer to `uint16_t` when it is stored (reduction modulo 65536), the
initialisation of a record from five scalars, and the reading of a field.
-/

namespace Projeto

/-! ## Scalar types used by the header -/

/-- Largest value of a `uint16_t`. -/
def UINT16_MAX : Nat := 65535

/-- The C type `uint16_t`: an unsigned integer of 16 bits, as a natural number
below 65536. -/
structure uint16_t where
  val : Nat
  isLt : val < 65536
deriving DecidableEq

/-- Conversion of an integer value to `uint16_t`, as done by C on assignment or
initialisation: the value is reduced modulo 65536. -/
def uint16_t.ofNat (n : Nat) : uint16_t :=
  ⟨n % 65536, Nat.mod_lt n (by decide)⟩

/-- The C type `float` of the target (IEEE-754 binary32), as its 32-bit pattern.
A field of this type stores and returns the pattern as it is. -/
structure float where
  bits : Nat
  isLt : bits < 4294967296
deriving DecidableEq

/-- Sign bit of a binary32 pattern. -/
def float.sign (f : float) : Nat := f.bits / 2147483648

/-- Biased exponent (8 bits) of a binary32 pattern. -/
def float.exponent (f : float) : Nat := (f.bits / 8388608) % 256

/-- Fraction (23 bits) of a binary32 pattern. -/
def float.fraction (f : float) : Nat := f.bits % 8388608

/-- The rational number a binary32 pattern denotes; `none` for infinities and
NaN (biased exponent 255). -/
def float.toRat? (f : float) : Option ℚ :=
  if f.exponent = 255 then none
  else
    let s : ℚ := if f.sign = 0 then 1 else -1
    if f.exponent = 0 then some (s * (f.fraction : ℚ) / 2 ^ 149)
    else some (s * ((8388608 + f.fraction : Nat) : ℚ) * 2 ^ f.exponent / 2 ^ 150)

/-- The binary32 pattern `0x40A00000` of the literal `5.0`. -/
def float_5_0 : float := ⟨1084227584, by decide⟩

/-! ## `measure_error` -/

/-- The enumerators of `typedef enum { NONE, BELOW_MIN, ABOVE_MAX } measure_error;`
in declaration order. The enumerators carry no data. This is the set of named
constants of the enumeration; the values an object of the type holds are
`measure_error_value`. -/
inductive measure_error where
  | NONE
  | BELOW_MIN
  | ABOVE_MAX
deriving DecidableEq, Repr

/-- Integer value of an enumerator: no enumerator has an explicit value, so the
first one is 0 and each following one is one more than the previous. -/
def measure_error.toInt : measure_error → Int
  | .NONE => 0
  | .BELOW_MIN => 1
  | .ABOVE_MAX => 2

/-- The enumerator with a given integer value, if there is one. -/
def measure_error.ofInt? (i : Int) : Option measure_error :=
  if i = 0 then some .NONE
  else if i = 1 then some .BELOW_MIN
  else if i = 2 then some .ABOVE_MAX
  else none

/-- The list of all enumerators, in declaration order. -/
def measure_error.all : List measure_error := [.NONE, .BELOW_MIN, .ABOVE_MAX]

/-- A value of the C type `measure_error`. An enumerated type is an integer type:
an object of the type holds an integer, and that integer is the value of an
enumerator or of none, as after `measure_error e = (measure_error)3;`. The header
does not choose the underlying integer type, so the integer is kept without a
bound; every integer type C may choose holds 0, 1, 2 and 3, and no statement
below uses another value. -/
structure measure_error_value where
  val : Int
deriving DecidableEq

/-- The value an enumerator has when it is used as an expression of the type. -/
def measure_error.toValue (e : measure_error) : measure_error_value :=
  ⟨e.toInt⟩

/-- The comparison `a == b` of two values of the type: the comparison of their
integers. -/
def measure_error_value.eq (a b : measure_error_value) : Bool :=
  decide (a.val = b.val)

/-! ## `WaterTank` -/

/-- The record `WaterTank`, with its fields in declaration order: capacity in
liters, capacity error in liters, and the dimensions in centimeters. -/
structure WaterTank where
  capacity : uint16_t
  capacityError : float
  height : uint16_t
  diameterMin : uint16_t
  diameterMax : uint16_t
deriving DecidableEq

/-- Initialisation `WaterTank t = { capacity, capacityError, height, diameterMin,
diameterMax };` from five scalars: each integer is converted to `uint16_t`. No
check is made on the values. -/
def WaterTank.init (capacity : Nat) (capacityError : float)
    (height diameterMin diameterMax : Nat) : WaterTank :=
  { capacity := uint16_t.ofNat capacity
    capacityError := capacityError
    height := uint16_t.ofNat height
    diameterMin := uint16_t.ofNat diameterMin
    diameterMax := uint16_t.ofNat diameterMax }

/-- Assignment `t.capacity = n;`. -/
def WaterTank.store_capacity (t : WaterTank) (n : Nat) : WaterTank :=
  { t with capacity := uint16_t.ofNat n }

/-- Assignment `t.height = n;`. -/
def WaterTank.store_height (t : WaterTank) (n : Nat) : WaterTank :=
  { t with height := uint16_t.ofNat n }

/-- Assignment `t.diameterMin = n;`. -/
def WaterTank.store_diameterMin (t : WaterTank) (n : Nat) : WaterTank :=
  { t with diameterMin := uint16_t.ofNat n }

/-- Assignment `t.diameterMax = n;`. -/
def WaterTank.store_diameterMax (t : WaterTank) (n : Nat) : WaterTank :=
  { t with diameterMax := uint16_t.ofNat n }

/-! ## Helper lemmas -/

theorem uint16_t.ofNat_val (n : Nat) : (uint16_t.ofNat n).val = n % 65536 := rfl

theorem uint16_t.ofNat_val_of_le {n : Nat} (h : n ≤ UINT16_MAX) :
    (uint16_t.ofNat n).val = n := by
  have h2 : n < 65536 := by
    unfold UINT16_MAX at h
    omega
  simp [uint16_t.ofNat, Nat.mod_eq_of_lt h2]

theorem uint16_t.ofNat_val_eq_iff (n : Nat) :
    (uint16_t.ofNat n).val = n ↔ n < 65536 := by
  rw [uint16_t.ofNat_val]
  constructor
  · intro h
    have := Nat.mod_lt n (show 0 < 65536 by decide)
    omega
  · intro h
    exact Nat.mod_eq_of_lt h

theorem uint16_t.val_le_max (x : uint16_t) : x.val ≤ UINT16_MAX := by
  have := x.isLt
  unfold UINT16_MAX
  omega

theorem float_5_0_toRat : float_5_0.toRat? = some 5 := by
  have he : float_5_0.exponent = 129 := by decide
  have hs : float_5_0.sign = 0 := by decide
  have hf : float_5_0.fraction = 2097152 := by decide
  simp only [float.toRat?, he, hs, hf]
  norm_num

/-! ## The claims -/

/-- C1, as the code has it: the claim fails for the values of the type. An
object of type `measure_error` holding 3 is none of `NONE`, `BELOW_MIN`,
`ABOVE_MAX`, and compares unequal to each of them, so it is not true that every
`measure_error` value equals one of the three. -/
theorem measure_error_value_not_exhaustive :
    ((measure_error_value.mk 3 ≠ measure_error.NONE.toValue ∧
      measure_error_value.mk 3 ≠ measure_error.BELOW_MIN.toValue ∧
      measure_error_value.mk 3 ≠ measure_error.ABOVE_MAX.toValue) ∧
     (measure_error_value.eq (measure_error_value.mk 3) measure_error.NONE.toValue = false ∧
      measure_error_value.eq (measure_error_value.mk 3) measure_error.BELOW_MIN.toValue = false ∧
      measure_error_value.eq (measure_error_value.mk 3) measure_error.ABOVE_MAX.toValue = false)) ∧
    ¬ (∀ v : measure_error_value,
        v = measure_error.NONE.toValue ∨ v = measure_error.BELOW_MIN.toValue ∨
        v = measure_error.ABOVE_MAX.toValue) := by
  refine ⟨⟨⟨by decide, by decide, by decide⟩, ⟨by decide, by decide, by decide⟩⟩, ?_⟩
  intro h
  rcases h (measure_error_value.mk 3) with h1 | h1 | h1 <;> exact absurd h1 (by decide)

/-- C1, amended: `measure_error` declares exactly three enumerators, `NONE`,
`BELOW_MIN` and `ABOVE_MAX`, with no payload. They are pairwise distinct, as
enumerators and as values of the type, and every enumerator is exactly one of the
three. A value of the type equals at most one of the three; it equals one of
them exactly when its integer is 0, 1 or 2, and the type also holds values that
are no enumerator. A value is nothing but its integer. `ABOVE_MAX` compares
unequal to `NONE` and to `BELOW_MIN`, and a value compares equal to `ABOVE_MAX`
only when it is `ABOVE_MAX`. -/
theorem measure_error_enumerators :
    (measure_error.all.Nodup ∧ measure_error.all.length = 3 ∧
      ∀ e : measure_error, e ∈ measure_error.all) ∧
    (∀ e : measure_error,
      (e = .NONE ∧ e ≠ .BELOW_MIN ∧ e ≠ .ABOVE_MAX) ∨
      (e ≠ .NONE ∧ e = .BELOW_MIN ∧ e ≠ .ABOVE_MAX) ∨
      (e ≠ .NONE ∧ e ≠ .BELOW_MIN ∧ e = .ABOVE_MAX)) ∧
    (measure_error.NONE.toValue ≠ measure_error.BELOW_MIN.toValue ∧
      measure_error.NONE.toValue ≠ measure_error.ABOVE_MAX.toValue ∧
      measure_error.BELOW_MIN.toValue ≠ measure_error.ABOVE_MAX.toValue ∧
      Function.Injective measure_error.toValue) ∧
    (∀ v : measure_error_value,
      ¬ (v = measure_error.NONE.toValue ∧ v = measure_error.BELOW_MIN.toValue) ∧
      ¬ (v = measure_error.NONE.toValue ∧ v = measure_error.ABOVE_MAX.toValue) ∧
      ¬ (v = measure_error.BELOW_MIN.toValue ∧ v = measure_error.ABOVE_MAX.toValue)) ∧
    (∀ v : measure_error_value,
      (∃ e : measure_error, v = e.toValue) ↔ (v.val = 0 ∨ v.val = 1 ∨ v.val = 2)) ∧
    (∃ v : measure_error_value, ∀ e : measure_error, v ≠ e.toValue) ∧
    (∀ a b : measure_error_value, a = b ↔ a.val = b.val) ∧
    (∀ a b : measure_error_value, measure_error_value.eq a b = true ↔ a = b) ∧
    (measure_error_value.eq measure_error.ABOVE_MAX.toValue measure_error.NONE.toValue = false ∧
      measure_error_value.eq measure_error.ABOVE_MAX.toValue
        measure_error.BELOW_MIN.toValue = false ∧
      measure_error_value.eq measure_error.ABOVE_MAX.toValue
        measure_error.ABOVE_MAX.toValue = true ∧
      ∀ v : measure_error_value,
        measure_error_value.eq measure_error.ABOVE_MAX.toValue v = true ↔
          v = measure_error.ABOVE_MAX.toValue) := by
  have hval : ∀ a b : measure_error_value, a = b ↔ a.val = b.val := by
    intro a b
    constructor
    · intro h
      rw [h]
    · intro h
      cases a
      cases b
      simp only at h
      rw [h]
  have heq : ∀ a b : measure_error_value, measure_error_value.eq a b = true ↔ a = b := by
    intro a b
    rw [hval]
    simp [measure_error_value.eq]
  refine ⟨⟨by decide, rfl, ?_⟩, ?_, ⟨by decide, by decide, by decide, ?_⟩, ?_, ?_,
    ⟨measure_error_value.mk 3, ?_⟩, hval, heq, ⟨by decide, by decide, by decide, ?_⟩⟩
  · intro e
    cases e <;> simp [measure_error.all]
  · intro e
    cases e <;> simp
  · intro a b h
    cases a <;> cases b <;> first | rfl | exact absurd h (by decide)
  · intro v
    refine ⟨?_, ?_, ?_⟩ <;>
    · rintro ⟨h1, h2⟩
      rw [h1] at h2
      exact absurd h2 (by decide)
  · intro v
    constructor
    · rintro ⟨e, rfl⟩
      cases e <;> simp [measure_error.toValue, measure_error.toInt]
    · rintro (h | h | h)
      · exact ⟨.NONE, (hval _ _).2 h⟩
      · exact ⟨.BELOW_MIN, (hval _ _).2 h⟩
      · exact ⟨.ABOVE_MAX, (hval _ _).2 h⟩
  · intro e
    cases e <;> decide
  · intro v
    rw [heq]
    exact eq_comm

/-- C2: for all `capacity`, `height`, `diameterMin` and `diameterMax` in the
16-bit unsigned range and every `capacityError`, the `WaterTank` initialised from
these five scalars exists and each of its five fields reads as the value it was
initialised with. -/
theorem WaterTank_init_fields (capacity height diameterMin diameterMax : Nat)
    (capacityError : float)
    (hc : capacity ≤ UINT16_MAX) (hh : height ≤ UINT16_MAX)
    (hmin : diameterMin ≤ UINT16_MAX) (hmax : diameterMax ≤ UINT16_MAX) :
    ∃ t : WaterTank,
      t = WaterTank.init capacity capacityError height diameterMin diameterMax ∧
      t.capacity.val = capacity ∧
      t.capacityError = capacityError ∧
      t.height.val = height ∧
      t.diameterMin.val = diameterMin ∧
      t.diameterMax.val = diameterMax :=
  ⟨WaterTank.init capacity capacityError height diameterMin diameterMax, rfl,
    uint16_t.ofNat_val_of_le hc, rfl, uint16_t.ofNat_val_of_le hh,
    uint16_t.ofNat_val_of_le hmin, uint16_t.ofNat_val_of_le hmax⟩

/-- The tank of the example: `capacity = 1000`, `capacityError = 5.0`,
`height = 150`, `diameterMin = 80`, `diameterMax = 120`. The pattern stored in
`capacityError` denotes the number 5. -/
theorem WaterTank_init_fields_witness :
    float_5_0.toRat? = some 5 ∧
    ∃ t : WaterTank,
      t = WaterTank.init 1000 float_5_0 150 80 120 ∧
      t.capacity.val = 1000 ∧
      t.capacityError = float_5_0 ∧
      t.height.val = 150 ∧
      t.diameterMin.val = 80 ∧
      t.diameterMax.val = 120 :=
  ⟨float_5_0_toRat,
    WaterTank_init_fields 1000 150 80 120 float_5_0
      (by decide) (by decide) (by decide) (by decide)⟩

/-- C3: in every `WaterTank` value the field `capacity` is an unsigned integer in
the 16-bit range, `0 ≤ capacity ≤ 65535`, and so are `height`, `diameterMin` and
`diameterMax`. -/
theorem WaterTank_fields_in_range (t : WaterTank) :
    ((0 : Int) ≤ (t.capacity.val : Int) ∧ t.capacity.val ≤ 65535) ∧
    ((0 : Int) ≤ (t.height.val : Int) ∧ t.height.val ≤ 65535) ∧
    ((0 : Int) ≤ (t.diameterMin.val : Int) ∧ t.diameterMin.val ≤ 65535) ∧
    ((0 : Int) ≤ (t.diameterMax.val : Int) ∧ t.diameterMax.val ≤ 65535) :=
  ⟨⟨Int.ofNat_nonneg _, uint16_t.val_le_max _⟩,
    ⟨Int.ofNat_nonneg _, uint16_t.val_le_max _⟩,
    ⟨Int.ofNat_nonneg _, uint16_t.val_le_max _⟩,
    ⟨Int.ofNat_nonneg _, uint16_t.val_le_max _⟩⟩

/-- C4: `WaterTank` enforces no physical invariant. There is a tank with
`diameterMax < diameterMin`, there is a tank whose `capacity`, `height`,
`diameterMin` and `diameterMax` are all 0, and no combination of field values is
rejected: for any five field values there is a tank holding exactly them, and
initialisation from any five scalars gives a tank whose integer fields are the
scalars reduced modulo 65536. -/
theorem WaterTank_no_invariant :
    (∃ t : WaterTank, t.diameterMax.val < t.diameterMin.val) ∧
    (∃ t : WaterTank, t.capacity.val = 0 ∧ t.height.val = 0 ∧
      t.diameterMin.val = 0 ∧ t.diameterMax.val = 0) ∧
    (∀ (c : uint16_t) (e : float) (h dmin dmax : uint16_t),
      ∃ t : WaterTank, t.capacity = c ∧ t.capacityError = e ∧ t.height = h ∧
        t.diameterMin = dmin ∧ t.diameterMax = dmax) ∧
    (∀ (c : Nat) (e : float) (h dmin dmax : Nat),
      ∃ t : WaterTank, WaterTank.init c e h dmin dmax = t ∧
        t.capacity.val = c % 65536 ∧ t.capacityError = e ∧
        t.height.val = h % 65536 ∧ t.diameterMin.val = dmin % 65536 ∧
        t.diameterMax.val = dmax % 65536) := by
  refine ⟨⟨WaterTank.init 1000 float_5_0 150 120 80, by decide⟩,
    ⟨WaterTank.init 0 float_5_0 0 0 0, by decide⟩, ?_, ?_⟩
  · intro c e h dmin dmax
    exact ⟨⟨c, e, h, dmin, dmax⟩, rfl, rfl, rfl, rfl, rfl⟩
  · intro c e h dmin dmax
    exact ⟨WaterTank.init c e h dmin dmax, rfl, rfl, rfl, rfl, rfl, rfl⟩

/-- C5: the integer encoding of `measure_error` is `NONE = 0`, `BELOW_MIN = 1`,
`ABOVE_MAX = 2`. The map from enumerators to integers is injective and its image
is exactly `{0, 1, 2}`; the value 0 (a zero-initialised `measure_error`) is
`NONE`, and an enumerator is non-zero exactly when it is one of the two
out-of-range tags `BELOW_MIN`, `ABOVE_MAX`. -/
theorem measure_error_encoding :
    (measure_error.NONE.toInt = 0 ∧ measure_error.BELOW_MIN.toInt = 1 ∧
      measure_error.ABOVE_MAX.toInt = 2) ∧
    Function.Injective measure_error.toInt ∧
    Set.range measure_error.toInt = {0, 1, 2} ∧
    (measure_error.ofInt? 0 = some .NONE ∧
      ∀ e : measure_error, e.toInt = 0 ↔ e = .NONE) ∧
    (∀ e : measure_error, e.toInt ≠ 0 ↔ (e = .BELOW_MIN ∨ e = .ABOVE_MAX)) ∧
    (∀ e : measure_error, measure_error.ofInt? e.toInt = some e) := by
  refine ⟨⟨rfl, rfl, rfl⟩, ?_, ?_, ⟨rfl, ?_⟩, ?_, ?_⟩
  · intro a b h
    cases a <;> cases b <;> simp [measure_error.toInt] at h ⊢
  · ext i
    simp only [Set.mem_range, Set.mem_insert_iff, Set.mem_singleton_iff]
    constructor
    · rintro ⟨e, rfl⟩
      cases e <;> simp [measure_error.toInt]
    · rintro (h | h | h)
      · exact ⟨.NONE, h.symm⟩
      · exact ⟨.BELOW_MIN, h.symm⟩
      · exact ⟨.ABOVE_MAX, h.symm⟩
  · intro e
    cases e <;> simp [measure_error.toInt]
  · intro e
    cases e <;> simp [measure_error.toInt]
  · intro e
    cases e <;> rfl

/-- C6: storing a natural number `n` into any of the `uint16_t` fields of a
`WaterTank` (`capacity`, `height`, `diameterMin`, `diameterMax`) gives the field
value `n mod 65536`; the stored value is `n` if and only if `n < 65536`; and a
capacity of 70000 is stored as 4464, so the field does not hold it unchanged. -/
theorem WaterTank_store_mod (t : WaterTank) (n : Nat) :
    ((t.store_capacity n).capacity.val = n % 65536 ∧
      (t.store_height n).height.val = n % 65536 ∧
      (t.store_diameterMin n).diameterMin.val = n % 65536 ∧
      (t.store_diameterMax n).diameterMax.val = n % 65536) ∧
    (((t.store_capacity n).capacity.val = n ↔ n < 65536) ∧
      ((t.store_height n).height.val = n ↔ n < 65536) ∧
      ((t.store_diameterMin n).diameterMin.val = n ↔ n < 65536) ∧
      ((t.store_diameterMax n).diameterMax.val = n ↔ n < 65536)) ∧
    ((t.store_capacity 70000).capacity.val = 4464 ∧
      (t.store_capacity 70000).capacity.val ≠ 70000 ∧
      (WaterTank.init 70000 t.capacityError n n n).capacity.val = 4464) :=
  ⟨⟨rfl, rfl, rfl, rfl⟩,
    ⟨uint16_t.ofNat_val_eq_iff n, uint16_t.ofNat_val_eq_iff n,
      uint16_t.ofNat_val_eq_iff n, uint16_t.ofNat_val_eq_iff n⟩,
    ⟨rfl, by simp [WaterTank.store_capacity, uint16_t.ofNat], rfl⟩⟩

end Projeto
